import Mathlib

/-!
Verification of the DwiSlpy static checker and interpreter
(src/dwislpy-check.cc, src/dwislpy-ast.cc, src/dwislpy-ast.hh).

The C++ sources are embedded shallowly:

* `Ty` is the `Type` variant (BoolTy/IntTy/StrTy/NoneTy), `Rtns` the
  return-behavior variant (Void / VoidOr / Type), `Valu` the runtime value
  variant — all declared in `dwislpy-check.hh` / `dwislpy-ast.hh` and
  reconstructed from their uses in the two .cc files and spec.md section 3.
* `SymT` (the scope-stack symbol table) is implemented in files that are not
  part of src/, so it is modelled from the spec (section 3 and section 4.2).
* Checker functions (`chck`) return `Except ChkErr`, the thrown
  `DwislpyError` becoming `ChkErr.err` with the source's message text
  (source locations are dropped; the single-quote characters that some
  messages put around identifier names are dropped as well).  A dereference
  of a null pointer (`els->body` when `els` is null, `expn->eval` when
  `expn` is null) is modelled as the distinguished outcome `nullDeref`.
* The checker mutates the symbol table through a reference; here every
  `chck` returns the updated table.
* The interpreter (`exec` / `eval`) can loop (`while`, `repeat`), so the
  statement-level functions take a fuel argument and consume one unit per
  call layer; `RunErr.outOfFuel` marks exhaustion.  C++ `int` arithmetic is
  modelled with unbounded `Int`: no claim below depends on overflow.
  The embedded AST carries the node kinds the claims are about; `print`,
  procedure/function calls and the compound-assignment statements play no
  role in any claim and are omitted.
-/

namespace DwiSlpy

/-- Variable and function names. -/
abbrev Name := String

/-- The four primitive types: the `Type` variant of dwislpy-check.hh
(BoolTy, IntTy, StrTy, NoneTy), spec section 3. -/
inductive Ty where
  | int
  | str
  | bool
  | none
deriving DecidableEq, Repr

/-- Transcribes `get_type_str` (dwislpy-check.cc lines 16-28). -/
def get_type_str : Ty → String
  | .int => "int"
  | .str => "str"
  | .bool => "bool"
  | .none => "None"

/-- Transcribes `type_name` (dwislpy-check.cc lines 66-80); on the four
inhabited tags it agrees with `get_type_str`. -/
def type_name : Ty → String
  | .int => "int"
  | .str => "str"
  | .bool => "bool"
  | .none => "None"

/-- Return behavior: the `Rtns` variant (Void / VoidOr / Type) of
dwislpy-check.hh, spec section 3. -/
inductive Rtns where
  | void
  | voidOr (t : Ty)
  | type (t : Ty)
deriving DecidableEq, Repr

/-- Transcribes `type_of` (dwislpy-check.cc lines 107-115): the type held
by a `Rtns`, with `NONE_T` as the (source-commented "should not happen")
default for `Void`. -/
def type_of : Rtns → Ty
  | .voidOr t => t
  | .type t => t
  | .void => Ty.none

/-- Transcribes `has_void` (dwislpy-check.cc lines 266-268). -/
def has_void : Rtns → Bool
  | .void => true
  | .voidOr _ => true
  | .type _ => false

/-- Runtime values: the `Valu` variant (int, bool, std::string, none) of
dwislpy-ast.hh line 43. -/
inductive Valu where
  | int (n : Int)
  | bool (b : Bool)
  | str (s : String)
  | none
deriving DecidableEq, Repr

/-- Checker outcomes other than success: `err` is a thrown `DwislpyError`
(message text only), `nullDeref` marks the dereference of a null pointer
(undefined behavior in the C++ source), `outOfFuel` is an artifact of the
fuel-indexed embedding and never occurs at sufficient fuel. -/
inductive ChkErr where
  | err (msg : String)
  | nullDeref
  | outOfFuel
deriving DecidableEq, Repr

/-- Runtime failure outcomes of `eval` / `exec`: thrown `DwislpyError`s
("Run-time error: wrong operand type for ...", unbound variable,
conversion failure), a failed `std::get<bool>` tag inspection on a
condition value, a null `expn` in `FRtn::exec`, and fuel exhaustion
(an artifact of the embedding). -/
inductive RunErr where
  | wrongOperand (op : String)
  | undefinedVar (n : Name)
  | intConv (s : String)
  | cannotConvert
  | badBoolGet
  | nullDeref
  | outOfFuel
deriving DecidableEq, Repr

/-- Modelled from the spec: the symbol table `SymT` is implemented in
dwislpy-check.hh / its .cc (not part of src/).  Spec section 3: "an
ordered stack of scope frames, each frame a mapping from name to
SymbolInfo"; the innermost frame is the head of `frames`. -/
structure SymT where
  frames : List (List (Name × Ty))
deriving DecidableEq, Repr

/-- First binding of `n` in one frame. -/
def lookupFrame : List (Name × Ty) → Name → Option Ty
  | [], _ => Option.none
  | (m, t) :: rest, n => if m = n then Option.some t else lookupFrame rest n

namespace SymT

/-- Modelled from the spec (section 4.2): `mark()` begins a new lexical
scope by pushing an empty frame. -/
def mark (st : SymT) : SymT := ⟨[] :: st.frames⟩

/-- Modelled from the spec (section 3): `pop_until_mark()` discards frames
down to and including the most recent mark, restoring the table to its
state before that scope was entered. -/
def pop_until_mark (st : SymT) : SymT := ⟨st.frames.tail⟩

/-- Modelled from the spec (section 3): `is_redefining(name)` is true iff
`name` already has an entry in the current innermost frame only. -/
def is_redefining (st : SymT) (n : Name) : Bool :=
  match st.frames with
  | [] => false
  | f :: _ => (lookupFrame f n).isSome

/-- Modelled from the spec (section 4.2): `add_locl(name, type)`
introduces the binding in the current (innermost) scope. -/
def add_locl (st : SymT) (n : Name) (t : Ty) : SymT :=
  match st.frames with
  | [] => ⟨[[(n, t)]]⟩
  | f :: rest => ⟨((n, t) :: f) :: rest⟩

/-- Search a stack of frames innermost-first. -/
def lookupFrames : List (List (Name × Ty)) → Name → Option Ty
  | [], _ => Option.none
  | f :: rest, n =>
    match lookupFrame f n with
    | Option.some t => Option.some t
    | Option.none => lookupFrames rest n

/-- Modelled from the spec (section 4.2): `get_info(name)` looks the name
up across all active scopes, innermost first. -/
def get_info (st : SymT) (n : Name) : Option Ty :=
  lookupFrames st.frames n

/-- Modelled from the spec (section 4.2): `has_info(name)` is the
existence test matching `get_info`. -/
def has_info (st : SymT) (n : Name) : Bool := (st.get_info n).isSome

end SymT

/-- The runtime context `Ctxt` (dwislpy-ast.hh line 108), a name-to-value
map; the most recent binding shadows older list entries, matching
`unordered_map` assignment. -/
abbrev Ctxt := List (Name × Valu)

/-- Map update `ctxt[name] = v`. -/
def ctxtSet (c : Ctxt) (n : Name) (v : Valu) : Ctxt := (n, v) :: c

/-- Map lookup with `count`/`at` semantics. -/
def ctxtGet : Ctxt → Name → Option Valu
  | [], _ => Option.none
  | (m, v) :: rest, n => if m = n then Option.some v else ctxtGet rest n

/-- Expression AST nodes used by the claims: literals, variable lookup,
`+`, `-` and the int conversion (dwislpy-ast.hh classes Ltrl, Lkup, Plus,
Mnus, IntC). -/
inductive Expn where
  | ltrl (v : Valu)
  | lkup (n : Name)
  | plus (left rght : Expn)
  | mnus (left rght : Expn)
  | intc (e : Expn)
deriving DecidableEq, Repr

/- Statement AST nodes used by the claims (dwislpy-ast.hh classes Pass,
Asgn, Ntro, FRtn, PRtn, Cond with its Ifcd/Elif arms and optional Else,
Whil, Rept).  The `els` pointer of `Cond` may be null (constructor at
dwislpy-ast.hh line 353), hence the `Option`; likewise `FRtn::expn`
(null-checked in `FRtn::chck`). -/
mutual
/-- Statement AST node (see the comment above this mutual block). -/
inductive Stmt where
  | pass
  | asgn (name : Name) (expn : Expn)
  | ntro (name : Name) (type : Ty) (expn : Expn)
  | frtn (expn : Option Expn)
  | prtn
  | cond (ifcds : List Ifcd) (els : Option Else)
  | whil (cond : Expn) (body : Blck)
  | rept (cond : Expn) (body : Blck)

inductive Ifcd where
  | mk (cond : Expn) (body : Blck)

inductive Else where
  | mk (body : Blck)

inductive Blck where
  | mk (stmts : List Stmt)
end

def Ifcd.cond : Ifcd → Expn
  | .mk c _ => c

def Ifcd.body : Ifcd → Blck
  | .mk _ b => b

def Else.body : Else → Blck
  | .mk b => b

/-- A function definition (dwislpy-ast.hh class Defn): formals with their
declared types, body, declared return type.  `Fmag` is a symbol table
holding the formals in one frame; here the formals are the frame itself. -/
structure Defn where
  name : Name
  args : List (Name × Ty)
  body : Blck
  ret_type : Ty

/-- The function-name table `Defs` (dwislpy-ast.hh line 163). -/
abbrev Defs := List (Name × Defn)

/-- A program (dwislpy-ast.hh class Prgm): definitions plus an optional
main block (`Prgm::chck` and `Prgm::run` both test `main` for null). -/
structure Prgm where
  defs : Defs
  main : Option Blck

/-- Transcribes `Expn::chck` for the embedded expression kinds
(dwislpy-check.cc: Plus lines 370-381, Mnus lines 383-393, Ltrl lines
581-591, Lkup lines 593-599, IntC lines 609-615 — including IntC's
`!is_str(expr_ty) || !is_int(expr_ty)` test exactly as written). -/
def Expn.chck : Expn → Defs → SymT → Except ChkErr Ty
  | .plus l r, defs, st => do
    let left_ty ← Expn.chck l defs st
    let rght_ty ← Expn.chck r defs st
    if left_ty = Ty.int ∧ rght_ty = Ty.int then pure Ty.int
    else if left_ty = Ty.str ∧ rght_ty = Ty.str then pure Ty.str
    else throw (.err "Wrong operand types for plus.")
  | .mnus l r, defs, st => do
    let left_ty ← Expn.chck l defs st
    let rght_ty ← Expn.chck r defs st
    if left_ty = Ty.int ∧ rght_ty = Ty.int then pure Ty.int
    else throw (.err "Wrong operand types for minus.")
  | .ltrl v, _, _ =>
    match v with
    | .int _ => pure Ty.int
    | .str _ => pure Ty.str
    | .bool _ => pure Ty.bool
    | .none => pure Ty.none
  | .lkup n, _, st =>
    match st.get_info n with
    | Option.some t => pure t
    | Option.none => throw (.err ("Unknown identifier " ++ n ++ "."))
  | .intc e, defs, st => do
    let expr_ty ← Expn.chck e defs st
    if ¬ expr_ty = Ty.str ∨ ¬ expr_ty = Ty.int then
      throw (.err "Input requires a string or integer.")
    else pure Ty.int

/-- Models `std::stoi` far enough for `IntC::eval`: success exactly on
strings `String.toInt?` accepts.  (std::stoi also accepts numeric
prefixes of longer strings; no claim depends on that difference.) -/
def stoi? (s : String) : Option Int := s.toInt?

/-- Transcribes `Expn::eval` for the embedded expression kinds
(dwislpy-ast.cc: Plus lines 319-336, Mnus lines 338-350, Ltrl lines
411-414, Lkup lines 416-424, IntC lines 443-468). -/
def Expn.eval : Expn → Defs → Ctxt → Except RunErr Valu
  | .ltrl v, _, _ => pure v
  | .lkup n, _, ctxt =>
    match ctxtGet ctxt n with
    | Option.some v => pure v
    | Option.none => throw (.undefinedVar n)
  | .plus l r, defs, ctxt => do
    let lv ← Expn.eval l defs ctxt
    let rv ← Expn.eval r defs ctxt
    match lv, rv with
    | .int ln, .int rn => pure (.int (ln + rn))
    | .str ls, .str rs => pure (.str (ls ++ rs))
    | _, _ => throw (.wrongOperand "plus")
  | .mnus l r, defs, ctxt => do
    let lv ← Expn.eval l defs ctxt
    let rv ← Expn.eval r defs ctxt
    match lv, rv with
    | .int ln, .int rn => pure (.int (ln - rn))
    | _, _ => throw (.wrongOperand "minus")
  | .intc e, defs, ctxt => do
    let v ← Expn.eval e defs ctxt
    match v with
    | .int n => pure (.int n)
    | .str s =>
      match stoi? s with
      | Option.some i => pure (.int i)
      | Option.none => throw (.intConv s)
    | .bool b => pure (.int (if b then 1 else 0))
    | .none => throw .cannotConvert

/-- Transcribes the condition loop of `Cond::chck` (dwislpy-check.cc lines
285-288): every arm's condition, `if` and `elif` alike, must have type
Bool, with the arm index in the error message. -/
def chckConds : List Ifcd → Nat → Defs → SymT → Except ChkErr Unit
  | [], _, _, _ => pure ()
  | arm :: rest, i, defs, st => do
    let cond_tp ← Expn.chck arm.cond defs st
    if cond_tp ≠ Ty.bool then
      throw (.err ("The condition at " ++ toString i ++
        " should have type Bool but got " ++ get_type_str cond_tp))
    else chckConds rest (i + 1) defs st

/- The statement checker.  One fuel unit is consumed at the entry of every
function in this mutual block; at sufficient fuel the result is the one the
C++ recursion computes.  The symbol table is threaded explicitly: each
function returns the table as the C++ reference leaves it. -/
mutual

/-- Transcribes the `chck` methods of the embedded statement kinds
(dwislpy-check.cc: Pass lines 182-186, Asgn lines 168-180, Ntro lines
195-203, FRtn lines 205-221, PRtn lines 223-233, Cond lines 276-337, Whil
lines 339-356, Rept lines 358-368).  In the `Cond` case the per-arm loop
is `condLoop` below, and a null `els` pointer is dereferenced exactly as
the source does at line 317 (`els->body->chck`), yielding `nullDeref`. -/
def Stmt.chck : Nat → Stmt → Rtns → Defs → SymT → Except ChkErr (Rtns × SymT)
  | 0, _, _, _, _ => throw .outOfFuel
  | fuel + 1, s, expd, defs, symt =>
    match s with
    | .pass => pure (Rtns.void, symt)
    | .asgn name e =>
      match symt.get_info name with
      | Option.none =>
        throw (.err ("Variable " ++ name ++ " never introduced."))
      | Option.some name_ty => do
        let expn_ty ← Expn.chck e defs symt
        if name_ty ≠ expn_ty then
          throw (.err ("Type mismatch. Expected expression of type " ++
            type_name name_ty ++ "."))
        else pure (Rtns.void, symt)
    | .ntro name _type e =>
      if symt.is_redefining name then
        throw (.err ("Variable " ++ name ++ " already introduced."))
      else do
        let expn_type ← Expn.chck e defs symt
        pure (Rtns.void, symt.add_locl name expn_type)
    | .frtn oe =>
      let expd_ty := type_of expd
      match oe with
      | Option.none =>
        throw (.err ("The return value does not exist but should return " ++
          get_type_str expd_ty))
      | Option.some e => do
        let actual_tp ← Expn.chck e defs symt
        if expd_ty = actual_tp then pure (Rtns.type expd_ty, symt)
        else
          throw (.err ("The return type should be " ++ get_type_str expd_ty ++
            " but got " ++ get_type_str actual_tp))
    | .prtn =>
      match expd with
      | .void => throw (.err "Unexpected return statement.")
      | _ =>
        if ¬ type_of expd = Ty.none then
          throw (.err "A procedure does not return a value.")
        else pure (Rtns.type Ty.none, symt)
    | .cond ifcds els =>
      match ifcds with
      | [] => throw (.err "no if condition")
      | arm0 :: rest => do
        chckConds (arm0 :: rest) 0 defs symt
        let (return_pt, st1) ← Blck.chck fuel arm0.body expd defs symt
        let return_tp := type_of return_pt
        let rt_is_void : Bool := return_pt = Rtns.void
        let rt_has_void : Bool := has_void return_pt
        let (return_pt2, st2) ← condLoop fuel arm0.body rest 1 return_tp
          rt_is_void rt_has_void return_pt expd defs st1
        match els with
        | Option.none => throw .nullDeref
        | Option.some e => do
          let (body_rt_tp, st3) ← Blck.chck fuel e.body expd defs st2
          let body_has_void := has_void body_rt_tp
          let body_is_void : Bool := body_rt_tp = Rtns.void
          if body_is_void then
            if ¬ rt_is_void then
              pure (Rtns.voidOr (type_of return_pt2), st3)
            else pure (return_pt2, st3)
          else
            let body_tp := type_of body_rt_tp
            if return_tp ≠ body_tp then
              throw (.err ("The return type at else should have type " ++
                get_type_str return_tp ++ " but got " ++ get_type_str body_tp))
            else if rt_has_void ∨ body_has_void then
              pure (Rtns.voidOr return_tp, st3)
            else pure (return_pt2, st3)
    | .whil c b => do
      let cond_tp ← Expn.chck c defs symt
      if cond_tp ≠ Ty.bool then
        throw (.err ("The condition for while should have type Bool but got " ++
          get_type_str cond_tp))
      else do
        let (body_tp, st2) ← Blck.chck fuel b expd defs symt
        match body_tp with
        | .void => pure (Rtns.void, st2)
        | _ => pure (Rtns.voidOr (type_of body_tp), st2)
    | .rept c b => do
      let cond_tp ← Expn.chck c defs symt
      if cond_tp ≠ Ty.bool then
        throw (.err ("The condition for repeat should have type Bool but got " ++
          get_type_str cond_tp))
      else do
        let (body_tp, st2) ← Blck.chck fuel b expd defs symt
        match body_tp with
        | .void => pure (Rtns.void, st2)
        | _ => pure (Rtns.voidOr (type_of body_tp), st2)

/-- Transcribes the statement loop of `Blck::chck` (dwislpy-check.cc lines
138-161), the sequential merge: `acc` is the loop variable `rtns`.  A
`Type` statement result overwrites the accumulator and breaks (after the
mismatch test of line 146); a `VoidOr` result upgrades a `Void`
accumulator and must otherwise agree with it; a `Void` result changes
nothing. -/
def chckStmts : Nat → List Stmt → Rtns → Defs → Rtns → SymT →
    Except ChkErr (Rtns × SymT)
  | 0, _, _, _, _, _ => throw .outOfFuel
  | _ + 1, [], _, _, acc, symt => pure (acc, symt)
  | fuel + 1, stmt :: rest, expd, defs, acc, symt => do
    let (stmt_rtns, st2) ← Stmt.chck fuel stmt expd defs symt
    match stmt_rtns with
    | .type t =>
      if acc ≠ Rtns.void ∧ type_of acc ≠ t then
        throw (.err ("Statement returns " ++ get_type_str t ++
          " but previous statement returns " ++ get_type_str (type_of acc) ++ "."))
      else pure (stmt_rtns, st2)
    | .voidOr t =>
      if acc = Rtns.void then chckStmts fuel rest expd defs stmt_rtns st2
      else if type_of acc ≠ t then
        throw (.err "Statement might return different types.")
      else chckStmts fuel rest expd defs acc st2
    | .void => chckStmts fuel rest expd defs acc st2

/-- Transcribes `Blck::chck` (dwislpy-check.cc lines 133-166): mark a
scope, fold the statements with `chckStmts` starting from `Void`, pop the
scope, return the accumulated behavior. -/
def Blck.chck : Nat → Blck → Rtns → Defs → SymT → Except ChkErr (Rtns × SymT)
  | 0, _, _, _, _ => throw .outOfFuel
  | fuel + 1, .mk stmts, expd, defs, symt => do
    let (rtns, st2) ← chckStmts fuel stmts expd defs Rtns.void symt.mark
    pure (rtns, st2.pop_until_mark)

/-- Transcribes the arm loop of `Cond::chck` (dwislpy-check.cc lines
295-315).  `b0` is `ifcds[0]->body`: the source re-checks the FIRST arm's
body on every iteration instead of `ifcds[i]->body`.  `return_tp`,
`rt_is_void` and `rt_has_void` are the loop-invariant values computed from
the first arm before the loop; `return_pt` is the mutable merge result. -/
def condLoop : Nat → Blck → List Ifcd → Nat → Ty → Bool → Bool → Rtns →
    Rtns → Defs → SymT → Except ChkErr (Rtns × SymT)
  | 0, _, _, _, _, _, _, _, _, _, _ => throw .outOfFuel
  | _ + 1, _, [], _, _, _, _, return_pt, _, _, symt => pure (return_pt, symt)
  | fuel + 1, b0, _ :: rest, i, return_tp, rt_is_void, rt_has_void,
      return_pt, expd, defs, symt => do
    let (body_rt_tp, st2) ← Blck.chck fuel b0 expd defs symt
    let body_has_void := has_void body_rt_tp
    let body_is_void : Bool := body_rt_tp = Rtns.void
    if body_is_void then
      let rp2 := if rt_is_void then return_pt
        else Rtns.voidOr (type_of return_pt)
      condLoop fuel b0 rest (i + 1) return_tp rt_is_void rt_has_void rp2
        expd defs st2
    else
      let body_tp := type_of body_rt_tp
      if return_tp ≠ body_tp then
        throw (.err ("The return type at " ++ toString i ++
          " if should have type " ++ get_type_str return_tp ++
          " but got " ++ get_type_str body_tp))
      else
        let rp2 := if rt_has_void ∨ body_has_void then Rtns.voidOr return_tp
          else return_pt
        condLoop fuel b0 rest (i + 1) return_tp rt_is_void rt_has_void rp2
          expd defs st2

end

/-- Transcribes `Defn::chck` (dwislpy-check.cc lines 118-131): the body is
checked against `Rtns{ret_type}` with the formals as the outer scope
frame; a `Void` body never returns, a `VoidOr` body might not return, and
a returned type must equal the declared one. -/
def Defn.chck (fuel : Nat) (d : Defn) (defs : Defs) : Except ChkErr Unit := do
  let (rtns, _) ← Blck.chck fuel d.body (Rtns.type d.ret_type) defs ⟨[d.args]⟩
  match rtns with
  | .void => throw (.err "Definition body never returns.")
  | .voidOr _ => throw (.err "Definition body might not return.")
  | .type _ =>
    if type_of rtns ≠ d.ret_type then
      throw (.err ("Definition body returns " ++ get_type_str (type_of rtns) ++
        " but should return " ++ get_type_str d.ret_type))
    else pure ()

/-- The definition loop of `Prgm::chck` (dwislpy-check.cc lines 95-97). -/
def chckDefs (fuel : Nat) : List (Name × Defn) → Defs → Except ChkErr Unit
  | [], _ => pure ()
  | dfpr :: rest, defs => do
    Defn.chck fuel dfpr.2 defs
    chckDefs fuel rest defs

/-- Transcribes `Prgm::chck` (dwislpy-check.cc lines 94-105).  For a
non-`Void` main result the source CONSTRUCTS
`DwislpyError(main->where(), "Main script should not return.")` at line
101 but never throws it, so the value is discarded and checking
succeeds; the discarded construction is kept here as `let _`. -/
def Prgm.chck (fuel : Nat) (p : Prgm) : Except ChkErr Unit := do
  chckDefs fuel p.defs p.defs
  match p.main with
  | Option.none => pure ()
  | Option.some m => do
    let (rtns, _) ← Blck.chck fuel m Rtns.void p.defs ⟨[]⟩
    let _ : Option ChkErr :=
      if rtns ≠ Rtns.void then Option.some (.err "Main script should not return.")
      else Option.none
    pure ()

/- The interpreter.  One fuel unit is consumed at the entry of every
function in this mutual block; `while` and `repeat` re-execute themselves
with the remaining fuel.  `exec` returns the optional return value
(`std::optional<Valu>`) together with the updated runtime context. -/
mutual

/-- Transcribes the `exec` methods of the embedded statement kinds
(dwislpy-ast.cc: Pass lines 123-127, Asgn lines 112-116, Ntro lines
118-121, FRtn lines 216-218 with the unguarded `expn->eval` on a possibly
null pointer, PRtn lines 220-222, Cond lines 172-183, Whil lines 200-205,
Rept lines 208-213).  The loop bodies' return values are discarded, as in
the source. -/
def Stmt.exec : Nat → Stmt → Defs → Ctxt → Except RunErr (Option Valu × Ctxt)
  | 0, _, _, _ => throw .outOfFuel
  | fuel + 1, s, defs, ctxt =>
    match s with
    | .pass => pure (Option.none, ctxt)
    | .asgn name e => do
      let v ← Expn.eval e defs ctxt
      pure (Option.none, ctxtSet ctxt name v)
    | .ntro name _type e => do
      let v ← Expn.eval e defs ctxt
      pure (Option.none, ctxtSet ctxt name v)
    | .frtn oe =>
      match oe with
      | Option.none => throw .nullDeref
      | Option.some e => do
        let v ← Expn.eval e defs ctxt
        pure (Option.some v, ctxt)
    | .prtn => pure (Option.none, ctxt)
    | .cond ifcds els => condExec fuel ifcds els defs ctxt
    | .whil c b => do
      let cv ← Expn.eval c defs ctxt
      match cv with
      | .bool true => do
        let (_, ctxt2) ← Blck.exec fuel b defs ctxt
        Stmt.exec fuel (.whil c b) defs ctxt2
      | .bool false => pure (Option.none, ctxt)
      | _ => throw .badBoolGet
    | .rept c b => do
      let (_, ctxt2) ← Blck.exec fuel b defs ctxt
      let cv ← Expn.eval c defs ctxt2
      match cv with
      | .bool true => pure (Option.none, ctxt2)
      | .bool false => Stmt.exec fuel (.rept c b) defs ctxt2
      | _ => throw .badBoolGet

/-- Transcribes the arm loop of `Cond::exec` (dwislpy-ast.cc lines
172-183): evaluate each arm's condition with an unchecked
`std::get<bool>`, execute the first true arm's body, fall through to the
`else` body when one exists, and do nothing otherwise. -/
def condExec : Nat → List Ifcd → Option Else → Defs → Ctxt →
    Except RunErr (Option Valu × Ctxt)
  | 0, _, _, _, _ => throw .outOfFuel
  | fuel + 1, [], els, defs, ctxt =>
    match els with
    | Option.some e => Blck.exec fuel e.body defs ctxt
    | Option.none => pure (Option.none, ctxt)
  | fuel + 1, ifcd :: rest, els, defs, ctxt => do
    let cv ← Expn.eval ifcd.cond defs ctxt
    match cv with
    | .bool true => Blck.exec fuel ifcd.body defs ctxt
    | .bool false => condExec fuel rest els defs ctxt
    | _ => throw .badBoolGet

/-- Transcribes the statement loop of `Blck::exec` (dwislpy-ast.cc lines
102-110): execute in order, stopping at the first statement that produces
a return value. -/
def execStmts : Nat → List Stmt → Defs → Ctxt →
    Except RunErr (Option Valu × Ctxt)
  | 0, _, _, _ => throw .outOfFuel
  | _ + 1, [], _, ctxt => pure (Option.none, ctxt)
  | fuel + 1, s :: rest, defs, ctxt => do
    let (rv, ctxt2) ← Stmt.exec fuel s defs ctxt
    match rv with
    | Option.some v => pure (Option.some v, ctxt2)
    | Option.none => execStmts fuel rest defs ctxt2

/-- Transcribes `Blck::exec` (dwislpy-ast.cc lines 102-110). -/
def Blck.exec : Nat → Blck → Defs → Ctxt → Except RunErr (Option Valu × Ctxt)
  | 0, _, _, _ => throw .outOfFuel
  | fuel + 1, .mk stmts, defs, ctxt => execStmts fuel stmts defs ctxt

end

/-- Transcribes `Prgm::run` (dwislpy-ast.cc lines 94-99): execute the main
block, when present, in an empty runtime context, discarding its result. -/
def Prgm.run (fuel : Nat) (p : Prgm) : Except RunErr Unit :=
  match p.main with
  | Option.some m => do
    let _ ← Blck.exec fuel m p.defs []
    pure ()
  | Option.none => pure ()

/- Concrete programs used by the claim theorems below. -/

/-- The body of an elif arm holding the ill-typed statement
`y: int = "a" - "b"`. -/
def elifBadBody : Blck :=
  Blck.mk [.ntro "y" Ty.int (.mnus (.ltrl (.str "a")) (.ltrl (.str "b")))]

/-- The conditional `if False: pass elif True: y: int = "a" - "b" else:
pass`: the elif arm's body is ill typed, but `Cond::chck` never checks
it. -/
def condSkipsElif : Stmt :=
  .cond
    [Ifcd.mk (.ltrl (.bool false)) (Blck.mk [.pass]),
     Ifcd.mk (.ltrl (.bool true)) elifBadBody]
    (Option.some (Else.mk (Blck.mk [.pass])))

/-- A program whose main block is just `condSkipsElif`. -/
def prgmSkipsElif : Prgm := ⟨[], Option.some (Blck.mk [condSkipsElif])⟩

/-- A main block consisting of the single statement `return None`. -/
def mainReturns : Blck := Blck.mk [.frtn (Option.some (.ltrl Valu.none))]

/-- A program whose top-level script block returns. -/
def prgmMainReturns : Prgm := ⟨[], Option.some mainReturns⟩

/-- The else-less conditional `if True: pass`. -/
def condNoElse : Stmt :=
  .cond [Ifcd.mk (.ltrl (.bool true)) (Blck.mk [.pass])] Option.none

/-- Formals `(b: bool, x: int)` of the example definitions below. -/
def gArgs : List (Name × Ty) := [("b", Ty.bool), ("x", Ty.int)]

/-- Body `if b: return x` with no else branch. -/
def gBodyNoElse : Blck :=
  Blck.mk
    [.cond [Ifcd.mk (.lkup "b") (Blck.mk [.frtn (Option.some (.lkup "x"))])]
      Option.none]

/-- Body `if b: return x else: pass`: same returning arm, explicit empty
alternative. -/
def gBodyWithElse : Blck :=
  Blck.mk
    [.cond [Ifcd.mk (.lkup "b") (Blck.mk [.frtn (Option.some (.lkup "x"))])]
      (Option.some (Else.mk (Blck.mk [.pass])))]

/-- The function `def g(b: bool, x: int) -> int: if b: return x`. -/
def defnGNoElse : Defn := ⟨"g", gArgs, gBodyNoElse, Ty.int⟩

/-- The same function with an explicit empty else arm. -/
def defnGWithElse : Defn := ⟨"g", gArgs, gBodyWithElse, Ty.int⟩

/-- The statement `return "a"`, which always returns type str when the
expected return type is str. -/
def frtnStr : Stmt := .frtn (Option.some (.ltrl (.str "a")))

/-- Loop body `return 1` used by the while/repeat witness. -/
def loopRetBody : Blck := Blck.mk [.frtn (Option.some (.ltrl (.int 1)))]

/-- Block declaring `x: int = 1` twice in the same scope. -/
def blckRedecl : Blck :=
  Blck.mk [.ntro "x" Ty.int (.ltrl (.int 1)), .ntro "x" Ty.int (.ltrl (.int 2))]

/-- Block declaring `x: int = 1` and then shadowing it inside an if body. -/
def blckShadow : Blck :=
  Blck.mk
    [.ntro "x" Ty.int (.ltrl (.int 1)),
     .cond [Ifcd.mk (.ltrl (.bool true)) (Blck.mk [.ntro "x" Ty.int (.ltrl (.int 2))])]
       (Option.some (Else.mk (Blck.mk [.pass])))]

/-- Once introduced, a name resolves to the type it was bound with:
`add_locl` followed by `get_info` on the same name. -/
theorem add_locl_get_info (st : SymT) (n : Name) (t : Ty) :
    (st.add_locl n t).get_info n = Option.some t := by
  cases st with
  | mk frames =>
    cases frames with
    | nil => simp [SymT.add_locl, SymT.get_info, SymT.lookupFrames, lookupFrame]
    | cons f rest => simp [SymT.add_locl, SymT.get_info, SymT.lookupFrames, lookupFrame]

/-- C1: refuted on the code.  The program
`if False: pass elif True: y: int = "a" - "b" else: pass` passes `Prgm::chck`
(every condition has type Bool, and the elif arm's body is never checked,
because `Cond::chck` re-checks `ifcds[0]->body` at line 296 instead of
`ifcds[i]->body`), yet running it makes `Mnus::eval` fail its operand tag
inspection with the run-time wrong-operand-type error for minus — a
failure the claim says cannot happen for a checked program. -/
theorem C1_checked_program_hits_runtime_type_error :
    Prgm.chck 100 prgmSkipsElif = .ok () ∧
    Prgm.run 100 prgmSkipsElif = .error (.wrongOperand "minus") :=
  ⟨rfl, rfl⟩

/-- C2: refuted on the code.  The elif arm's body `y: int = "a" - "b"` is ill
typed (checking it directly raises the minus operand error), yet checking
the whole conditional succeeds with merged behavior Void: the loop at
lines 295-315 of dwislpy-check.cc checks `ifcds[0]->body` on every
iteration, so no elif arm's own body is ever checked, contradicting the
claim that each arm's body is checked independently and that an ill-typed
elif body raises a semantic error. -/
theorem C2_elif_body_never_checked :
    Blck.chck 100 elifBadBody Rtns.void [] ⟨[]⟩ =
      .error (.err "Wrong operand types for minus.") ∧
    Stmt.chck 100 condSkipsElif Rtns.void [] ⟨[[]]⟩ = .ok (Rtns.void, ⟨[[]]⟩) :=
  ⟨rfl, rfl⟩

/-- C3: refuted on the code.  The script block `return None` has computed
behavior Type None — not Void — yet `Prgm::chck` completes successfully:
line 101 of dwislpy-check.cc constructs
`DwislpyError(main->where(), "Main script should not return.")` without a
`throw`, so the error the claim says aborts checking is discarded. -/
theorem C3_script_return_not_rejected :
    Blck.chck 100 mainReturns Rtns.void [] ⟨[]⟩ =
      .ok (Rtns.type Ty.none, ⟨[]⟩) ∧
    Prgm.chck 100 prgmMainReturns = .ok () :=
  ⟨rfl, rfl⟩

/-- C4: refuted on the code.  Checking the else-less conditional
`if True: pass` does not treat the missing alternative as an implicit
empty Void arm: line 317 of dwislpy-check.cc evaluates `els->body` with
`els` null, an internal fault (undefined behavior), modelled here as the
`nullDeref` outcome. -/
theorem C4_no_else_conditional_faults :
    Stmt.chck 100 condNoElse Rtns.void [] ⟨[[]]⟩ = .error .nullDeref :=
  rfl

/-- C5: refuted on the code.  The operand `"5"` has type Str and the
operand `7` has type Int, yet `IntC::chck` raises the type error for
both: the test `!is_str(expr_ty) || !is_int(expr_ty)` at line 611 of
dwislpy-check.cc holds for every type, so int-conversion rejects all
operands instead of accepting Str and Int. -/
theorem C5_intc_rejects_str_and_int :
    Expn.chck (.ltrl (.str "5")) [] ⟨[]⟩ = .ok Ty.str ∧
    Expn.chck (.intc (.ltrl (.str "5"))) [] ⟨[]⟩ =
      .error (.err "Input requires a string or integer.") ∧
    Expn.chck (.ltrl (.int 7)) [] ⟨[]⟩ = .ok Ty.int ∧
    Expn.chck (.intc (.ltrl (.int 7))) [] ⟨[]⟩ =
      .error (.err "Input requires a string or integer.") :=
  ⟨rfl, rfl, rfl, rfl⟩

/-- C6: refuted on the code in its final example.  Checking
`def g(b: bool, x: int) -> int: if b: return x` (no else) dereferences
the null `els` pointer instead of raising "Definition body might not
return."; with an explicit empty else arm the body's behavior is
VoidOr int and `Defn::chck` raises exactly the might-not-return error
the claim describes. -/
theorem C6_defn_no_else_faults_instead_of_might_not_return :
    Defn.chck 100 defnGNoElse [] = .error .nullDeref ∧
    Defn.chck 100 defnGWithElse [] =
      .error (.err "Definition body might not return.") :=
  ⟨rfl, rfl⟩

/-- C7: counterexample to the claim as stated.  The statement
`return "a"` checked against expected return type str has behavior
Type str, yet with the accumulated behavior VoidOr int the block fold of
`Blck::chck` does not make the block's behavior Type str: line 146 of
dwislpy-check.cc raises "Statement returns str but previous statement
returns int." instead. -/
theorem C7_type_does_not_always_win :
    Stmt.chck 99 frtnStr (Rtns.type Ty.str) [] ⟨[[]]⟩ =
      .ok (Rtns.type Ty.str, ⟨[[]]⟩) ∧
    chckStmts 100 [frtnStr] (Rtns.type Ty.str) [] (Rtns.voidOr Ty.int) ⟨[[]]⟩ =
      .error (.err "Statement returns str but previous statement returns int.") :=
  ⟨rfl, rfl⟩

/-- C7 (amended): the left-to-right fold of `Blck::chck` over statement
behaviors.  A statement of behavior Type T makes the block's behavior
Type T — later statements are not examined — PROVIDED the accumulator is
Void or carries the same type T; an accumulator VoidOr T2 with T2 ≠ T
instead raises a type error.  A VoidOr T statement upgrades a Void
accumulator to VoidOr T, collides with VoidOr T2 for T2 ≠ T (raising
"Statement might return different types."), and keeps a matching VoidOr T
accumulator.  Void statements leave the accumulator unchanged and the
final accumulator is the fold's result. -/
theorem C7_sequential_merge_amended (fuel : Nat) (s : Stmt) (rest : List Stmt)
    (expd : Rtns) (defs : Defs) (acc : Rtns) (symt st2 : SymT) :
    (∀ t, Stmt.chck fuel s expd defs symt = .ok (Rtns.type t, st2) →
      ((acc = Rtns.void ∨ type_of acc = t) →
        chckStmts (fuel + 1) (s :: rest) expd defs acc symt =
          .ok (Rtns.type t, st2))
      ∧ (acc ≠ Rtns.void → type_of acc ≠ t →
        chckStmts (fuel + 1) (s :: rest) expd defs acc symt =
          .error (.err ("Statement returns " ++ get_type_str t ++
            " but previous statement returns " ++
            get_type_str (type_of acc) ++ "."))))
    ∧ (∀ t, Stmt.chck fuel s expd defs symt = .ok (Rtns.voidOr t, st2) →
      (acc = Rtns.void →
        chckStmts (fuel + 1) (s :: rest) expd defs acc symt =
          chckStmts fuel rest expd defs (Rtns.voidOr t) st2)
      ∧ (∀ t2, acc = Rtns.voidOr t2 → t2 ≠ t →
        chckStmts (fuel + 1) (s :: rest) expd defs acc symt =
          .error (.err "Statement might return different types."))
      ∧ (acc = Rtns.voidOr t →
        chckStmts (fuel + 1) (s :: rest) expd defs acc symt =
          chckStmts fuel rest expd defs acc st2))
    ∧ (Stmt.chck fuel s expd defs symt = .ok (Rtns.void, st2) →
      chckStmts (fuel + 1) (s :: rest) expd defs acc symt =
        chckStmts fuel rest expd defs acc st2)
    ∧ chckStmts (fuel + 1) [] expd defs acc symt = .ok (acc, symt) := by
  refine ⟨?_, ?_, ?_, ?_⟩
  · intro t h
    constructor
    · rintro (rfl | hty)
      · simp [chckStmts, h, Bind.bind, Except.bind, Pure.pure, Except.pure]
      · simp [chckStmts, h, hty, Bind.bind, Except.bind, Pure.pure, Except.pure]
    · intro hne hty
      simp [chckStmts, h, hne, hty, Bind.bind, Except.bind, Pure.pure,
        Except.pure, throw, throwThe, MonadExceptOf.throw]
  · intro t h
    refine ⟨?_, ?_, ?_⟩
    · rintro rfl
      simp [chckStmts, h, Bind.bind, Except.bind]
    · rintro t2 rfl hne
      simp [chckStmts, h, type_of, Bind.bind, Except.bind, throw, throwThe,
        MonadExceptOf.throw]
      intro hcontra
      exact absurd hcontra hne
    · rintro rfl
      simp [chckStmts, h, type_of, Bind.bind, Except.bind]
  · intro h
    simp [chckStmts, h, Bind.bind, Except.bind]
  · simp [chckStmts, Pure.pure, Except.pure]

/-- C7: witness instantiating every hypothesis of the amended sequential
merge theorem on concrete statements and accumulators. -/
theorem C7_sequential_merge_amended_witness :
    chckStmts 100 [frtnStr] (Rtns.type Ty.str) [] Rtns.void ⟨[[]]⟩ =
      .ok (Rtns.type Ty.str, ⟨[[]]⟩)
    ∧ chckStmts 100 [frtnStr] (Rtns.type Ty.str) [] (Rtns.voidOr Ty.int) ⟨[[]]⟩ =
      .error (.err ("Statement returns " ++ get_type_str Ty.str ++
        " but previous statement returns " ++
        get_type_str (type_of (Rtns.voidOr Ty.int)) ++ "."))
    ∧ chckStmts 100 [Stmt.whil (.ltrl (.bool true)) loopRetBody]
        (Rtns.type Ty.int) [] Rtns.void ⟨[[]]⟩ =
      chckStmts 99 [] (Rtns.type Ty.int) [] (Rtns.voidOr Ty.int) ⟨[[]]⟩
    ∧ chckStmts 100 [Stmt.whil (.ltrl (.bool true)) loopRetBody]
        (Rtns.type Ty.int) [] (Rtns.voidOr Ty.str) ⟨[[]]⟩ =
      .error (.err "Statement might return different types.")
    ∧ chckStmts 100 [Stmt.whil (.ltrl (.bool true)) loopRetBody]
        (Rtns.type Ty.int) [] (Rtns.voidOr Ty.int) ⟨[[]]⟩ =
      chckStmts 99 [] (Rtns.type Ty.int) [] (Rtns.voidOr Ty.int) ⟨[[]]⟩
    ∧ chckStmts 100 [Stmt.pass] (Rtns.type Ty.int) [] (Rtns.voidOr Ty.int)
        ⟨[[]]⟩ =
      chckStmts 99 [] (Rtns.type Ty.int) [] (Rtns.voidOr Ty.int) ⟨[[]]⟩ := by
  refine ⟨?_, ?_, ?_, ?_, ?_, ?_⟩
  · exact ((C7_sequential_merge_amended 99 frtnStr [] (Rtns.type Ty.str) []
      Rtns.void ⟨[[]]⟩ ⟨[[]]⟩).1 Ty.str rfl).1 (Or.inl rfl)
  · exact ((C7_sequential_merge_amended 99 frtnStr [] (Rtns.type Ty.str) []
      (Rtns.voidOr Ty.int) ⟨[[]]⟩ ⟨[[]]⟩).1 Ty.str rfl).2
      (by decide) (by decide)
  · exact (((C7_sequential_merge_amended 99 (Stmt.whil (.ltrl (.bool true)) loopRetBody)
      [] (Rtns.type Ty.int) [] Rtns.void ⟨[[]]⟩ ⟨[[]]⟩).2.1 Ty.int rfl).1) rfl
  · exact ((C7_sequential_merge_amended 99 (Stmt.whil (.ltrl (.bool true)) loopRetBody)
      [] (Rtns.type Ty.int) [] (Rtns.voidOr Ty.str) ⟨[[]]⟩ ⟨[[]]⟩).2.1 Ty.int rfl).2.1
      Ty.str rfl (by decide)
  · exact ((C7_sequential_merge_amended 99 (Stmt.whil (.ltrl (.bool true)) loopRetBody)
      [] (Rtns.type Ty.int) [] (Rtns.voidOr Ty.int) ⟨[[]]⟩ ⟨[[]]⟩).2.1 Ty.int rfl).2.2
      rfl
  · exact (C7_sequential_merge_amended 99 Stmt.pass [] (Rtns.type Ty.int) []
      (Rtns.voidOr Ty.int) ⟨[[]]⟩ ⟨[[]]⟩).2.2.1 rfl

/-- C8: `Whil::chck` and `Rept::chck` implement the same conservative
rule.  With a Bool-typed condition the two checks are equal outright
(whatever the body does); a condition of any other type makes each raise
its type error; and for a Bool condition a Void body yields Void while a
Type T or VoidOr T body yields VoidOr T for both loop forms — in
particular a repeat body that always returns still gives VoidOr T.  (The
two diagnostics for a non-Bool condition differ only in naming the loop
keyword.) -/
theorem C8_whil_rept_same_rule (fuel : Nat) (c : Expn) (b : Blck) (expd : Rtns)
    (defs : Defs) (symt : SymT) :
    (Expn.chck c defs symt = .ok Ty.bool →
      Stmt.chck (fuel + 1) (.whil c b) expd defs symt =
        Stmt.chck (fuel + 1) (.rept c b) expd defs symt)
    ∧ (∀ t, Expn.chck c defs symt = .ok t → t ≠ Ty.bool →
      Stmt.chck (fuel + 1) (.whil c b) expd defs symt =
        .error (.err ("The condition for while should have type Bool but got " ++
          get_type_str t))
      ∧ Stmt.chck (fuel + 1) (.rept c b) expd defs symt =
        .error (.err ("The condition for repeat should have type Bool but got " ++
          get_type_str t)))
    ∧ (∀ st2, Expn.chck c defs symt = .ok Ty.bool →
      (Blck.chck fuel b expd defs symt = .ok (Rtns.void, st2) →
        Stmt.chck (fuel + 1) (.whil c b) expd defs symt = .ok (Rtns.void, st2)
        ∧ Stmt.chck (fuel + 1) (.rept c b) expd defs symt = .ok (Rtns.void, st2))
      ∧ (∀ t, Blck.chck fuel b expd defs symt = .ok (Rtns.type t, st2) →
        Stmt.chck (fuel + 1) (.whil c b) expd defs symt = .ok (Rtns.voidOr t, st2)
        ∧ Stmt.chck (fuel + 1) (.rept c b) expd defs symt = .ok (Rtns.voidOr t, st2))
      ∧ (∀ t, Blck.chck fuel b expd defs symt = .ok (Rtns.voidOr t, st2) →
        Stmt.chck (fuel + 1) (.whil c b) expd defs symt = .ok (Rtns.voidOr t, st2)
        ∧ Stmt.chck (fuel + 1) (.rept c b) expd defs symt =
            .ok (Rtns.voidOr t, st2))) := by
  refine ⟨?_, ?_, ?_⟩
  · intro h
    simp [Stmt.chck, h, Bind.bind, Except.bind]
  · intro t h hne
    constructor <;>
      simp [Stmt.chck, h, hne, Bind.bind, Except.bind, throw, throwThe,
        MonadExceptOf.throw]
  · intro st2 h
    refine ⟨?_, ?_, ?_⟩
    · intro hb
      constructor <;>
        simp [Stmt.chck, h, hb, Bind.bind, Except.bind, Pure.pure, Except.pure]
    · intro t hb
      constructor <;>
        simp [Stmt.chck, h, hb, type_of, Bind.bind, Except.bind, Pure.pure,
          Except.pure]
    · intro t hb
      constructor <;>
        simp [Stmt.chck, h, hb, type_of, Bind.bind, Except.bind, Pure.pure,
          Except.pure]

/-- C8: witness instantiating the loop-rule theorem on concrete loops: a
true condition with an always-returning body (VoidOr for both forms), a
non-Bool condition (both type errors), a pass body (Void for both), and a
may-return body (VoidOr for both). -/
theorem C8_whil_rept_same_rule_witness :
    Stmt.chck 51 (.whil (.ltrl (.bool true)) loopRetBody) (Rtns.type Ty.int)
        [] ⟨[]⟩ =
      Stmt.chck 51 (.rept (.ltrl (.bool true)) loopRetBody) (Rtns.type Ty.int)
        [] ⟨[]⟩
    ∧ (Stmt.chck 51 (.whil (.ltrl (.int 0)) loopRetBody) (Rtns.type Ty.int)
        [] ⟨[]⟩ =
      .error (.err ("The condition for while should have type Bool but got " ++
        get_type_str Ty.int))
      ∧ Stmt.chck 51 (.rept (.ltrl (.int 0)) loopRetBody) (Rtns.type Ty.int)
          [] ⟨[]⟩ =
        .error (.err ("The condition for repeat should have type Bool but got " ++
          get_type_str Ty.int)))
    ∧ (Stmt.chck 51 (.whil (.ltrl (.bool true)) (Blck.mk [.pass]))
        (Rtns.type Ty.int) [] ⟨[]⟩ = .ok (Rtns.void, ⟨[]⟩)
      ∧ Stmt.chck 51 (.rept (.ltrl (.bool true)) (Blck.mk [.pass]))
          (Rtns.type Ty.int) [] ⟨[]⟩ = .ok (Rtns.void, ⟨[]⟩))
    ∧ (Stmt.chck 51 (.whil (.ltrl (.bool true)) loopRetBody)
        (Rtns.type Ty.int) [] ⟨[]⟩ = .ok (Rtns.voidOr Ty.int, ⟨[]⟩)
      ∧ Stmt.chck 51 (.rept (.ltrl (.bool true)) loopRetBody)
          (Rtns.type Ty.int) [] ⟨[]⟩ = .ok (Rtns.voidOr Ty.int, ⟨[]⟩))
    ∧ (Stmt.chck 51 (.whil (.ltrl (.bool true))
          (Blck.mk [.whil (.ltrl (.bool true)) loopRetBody]))
        (Rtns.type Ty.int) [] ⟨[]⟩ = .ok (Rtns.voidOr Ty.int, ⟨[]⟩)
      ∧ Stmt.chck 51 (.rept (.ltrl (.bool true))
            (Blck.mk [.whil (.ltrl (.bool true)) loopRetBody]))
          (Rtns.type Ty.int) [] ⟨[]⟩ = .ok (Rtns.voidOr Ty.int, ⟨[]⟩)) := by
  refine ⟨?_, ?_, ?_, ?_, ?_⟩
  · exact (C8_whil_rept_same_rule 50 (.ltrl (.bool true)) loopRetBody
      (Rtns.type Ty.int) [] ⟨[]⟩).1 rfl
  · exact (C8_whil_rept_same_rule 50 (.ltrl (.int 0)) loopRetBody
      (Rtns.type Ty.int) [] ⟨[]⟩).2.1 Ty.int rfl (by decide)
  · exact ((C8_whil_rept_same_rule 50 (.ltrl (.bool true)) (Blck.mk [.pass])
      (Rtns.type Ty.int) [] ⟨[]⟩).2.2 ⟨[]⟩ rfl).1 rfl
  · exact ((C8_whil_rept_same_rule 50 (.ltrl (.bool true)) loopRetBody
      (Rtns.type Ty.int) [] ⟨[]⟩).2.2 ⟨[]⟩ rfl).2.1 Ty.int rfl
  · exact ((C8_whil_rept_same_rule 50 (.ltrl (.bool true))
      (Blck.mk [.whil (.ltrl (.bool true)) loopRetBody])
      (Rtns.type Ty.int) [] ⟨[]⟩).2.2 ⟨[]⟩ rfl).2.2 Ty.int rfl

/-- C9: `Ntro::chck` raises the already-introduced error exactly when
`is_redefining` holds, i.e. when the name has an entry in the current
innermost frame, and otherwise binds the name in the current frame.  The
two scenario conjuncts check the concrete blocks: `x: int = 1` followed
by `x: int = 2` in the same block is rejected, while the same second
declaration inside a nested if body (a fresh frame) is accepted. -/
theorem C9_ntro_redefines_innermost_only (fuel : Nat) (n : Name) (ty : Ty)
    (e : Expn) (expd : Rtns) (defs : Defs) (symt : SymT) :
    (symt.is_redefining n = true →
      Stmt.chck (fuel + 1) (.ntro n ty e) expd defs symt =
        .error (.err ("Variable " ++ n ++ " already introduced.")))
    ∧ (∀ t, symt.is_redefining n = false → Expn.chck e defs symt = .ok t →
      Stmt.chck (fuel + 1) (.ntro n ty e) expd defs symt =
        .ok (Rtns.void, symt.add_locl n t))
    ∧ Blck.chck 100 blckRedecl Rtns.void [] ⟨[]⟩ =
        .error (.err "Variable x already introduced.")
    ∧ Blck.chck 100 blckShadow Rtns.void [] ⟨[]⟩ = .ok (Rtns.void, ⟨[]⟩) := by
  refine ⟨?_, ?_, rfl, rfl⟩
  · intro h
    simp [Stmt.chck, h, throw, throwThe, MonadExceptOf.throw]
  · intro t h he
    simp [Stmt.chck, h, he, Bind.bind, Except.bind, Pure.pure, Except.pure]

/-- C9: witness — `x` already bound in the innermost frame is rejected;
`x` bound only in an enclosing frame is shadowed without complaint. -/
theorem C9_ntro_redefines_innermost_only_witness :
    Stmt.chck 10 (.ntro "x" Ty.int (.ltrl (.int 2))) Rtns.void []
        ⟨[[("x", Ty.int)]]⟩ =
      .error (.err ("Variable " ++ "x" ++ " already introduced."))
    ∧ Stmt.chck 10 (.ntro "x" Ty.int (.ltrl (.int 2))) Rtns.void []
        ⟨[[], [("x", Ty.int)]]⟩ =
      .ok (Rtns.void, SymT.add_locl ⟨[[], [("x", Ty.int)]]⟩ "x" Ty.int) := by
  constructor
  · exact (C9_ntro_redefines_innermost_only 9 "x" Ty.int (.ltrl (.int 2))
      Rtns.void [] ⟨[[("x", Ty.int)]]⟩).1 rfl
  · exact (C9_ntro_redefines_innermost_only 9 "x" Ty.int (.ltrl (.int 2))
      Rtns.void [] ⟨[[], [("x", Ty.int)]]⟩).2.1 Ty.int rfl rfl

/-- C10: `Ntro::chck` never consults the annotation stored on the node —
two declarations differing only in their written annotation check
identically — and, when the name is not a redefinition, it binds the name
to the initializer's inferred type, which is what every later lookup
yields.  The scenario conjuncts show the int-annotated declaration
`x: int = "a"` being accepted with `x` thereafter of type str. -/
theorem C10_ntro_binds_initializer_type (fuel : Nat) (n : Name)
    (t1 t2 ta : Ty) (e : Expn) (expd : Rtns) (defs : Defs) (symt : SymT) :
    Stmt.chck fuel (.ntro n t1 e) expd defs symt =
      Stmt.chck fuel (.ntro n t2 e) expd defs symt
    ∧ (∀ te, symt.is_redefining n = false → Expn.chck e defs symt = .ok te →
      Stmt.chck (fuel + 1) (.ntro n ta e) expd defs symt =
        .ok (Rtns.void, symt.add_locl n te)
      ∧ Expn.chck (.lkup n) defs (symt.add_locl n te) = .ok te)
    ∧ Stmt.chck 10 (.ntro "x" Ty.int (.ltrl (.str "a"))) Rtns.void [] ⟨[[]]⟩ =
        .ok (Rtns.void, ⟨[[("x", Ty.str)]]⟩)
    ∧ Expn.chck (.lkup "x") [] ⟨[[("x", Ty.str)]]⟩ = .ok Ty.str := by
  refine ⟨?_, ?_, rfl, rfl⟩
  · cases fuel <;> rfl
  · intro te h he
    constructor
    · simp [Stmt.chck, h, he, Bind.bind, Except.bind, Pure.pure, Except.pure]
    · simp [Expn.chck, add_locl_get_info, Pure.pure, Except.pure]

/-- C10: witness — the annotation-independence clause at two distinct
annotations and the binding clause at the mismatched declaration
`x: int = "a"`. -/
theorem C10_ntro_binds_initializer_type_witness :
    Stmt.chck 10 (.ntro "x" Ty.int (.ltrl (.str "a"))) Rtns.void [] ⟨[[]]⟩ =
      Stmt.chck 10 (.ntro "x" Ty.bool (.ltrl (.str "a"))) Rtns.void [] ⟨[[]]⟩
    ∧ (Stmt.chck 10 (.ntro "x" Ty.int (.ltrl (.str "a"))) Rtns.void [] ⟨[[]]⟩ =
        .ok (Rtns.void, SymT.add_locl ⟨[[]]⟩ "x" Ty.str)
      ∧ Expn.chck (.lkup "x") [] (SymT.add_locl ⟨[[]]⟩ "x" Ty.str) =
        .ok Ty.str) := by
  constructor
  · exact (C10_ntro_binds_initializer_type 10 "x" Ty.int Ty.bool Ty.int
      (.ltrl (.str "a")) Rtns.void [] ⟨[[]]⟩).1
  · exact (C10_ntro_binds_initializer_type 9 "x" Ty.int Ty.bool Ty.int
      (.ltrl (.str "a")) Rtns.void [] ⟨[[]]⟩).2.1 Ty.str rfl rfl

end DwiSlpy
